import Mathlib

/-!
Shallow embedding of the salesbot service (src/app.py): the FAQ compiler
`parse_faq_tsv`, the session store (`get_or_create_session`, the `/ask`
handler with its history trimming loop) and the completion gateway
(`chat_completion`), together with theorems settling the specification
claims about them.

Text is modelled as `List Char` (`Str`).  Python string primitives used by
the code (`str.strip`, `str.strip('"')`, `str.splitlines`, `str.count`,
`str.split(sep, maxsplit)`) are embedded below; `splitlines` covers the
line boundaries `\n`, `\r\n` and `\r` (the documents handled by the
claims are `\n`-delimited), and `strip()` covers the ASCII whitespace
characters that Python strips.
-/

abbrev Str := List Char

/-- Python `str.strip()` whitespace class (ASCII part). -/
def isPySpace (c : Char) : Bool :=
  c = ' ' || c = '\t' || c = '\n' || c = '\r' || c = '\x0b' || c = '\x0c'

/-- Strip characters satisfying `p` from both ends (Python `str.strip`). -/
def stripWith (p : Char → Bool) (s : Str) : Str :=
  ((s.dropWhile p).reverse.dropWhile p).reverse

/-- Python `s.strip()`. -/
def pyStrip (s : Str) : Str := stripWith isPySpace s

/-- Python `s.strip('"')`: removes ALL leading and trailing `"` characters. -/
def stripQuotes (s : Str) : Str := stripWith (· = '"') s

/-- Python `str.splitlines` worker; `acc` holds the current line reversed. -/
def splitlinesGo : Str → Str → List Str
  | [], acc => if acc.isEmpty then [] else [acc.reverse]
  | '\r' :: '\n' :: rest, acc => acc.reverse :: splitlinesGo rest []
  | '\n' :: rest, acc => acc.reverse :: splitlinesGo rest []
  | '\r' :: rest, acc => acc.reverse :: splitlinesGo rest []
  | c :: rest, acc => splitlinesGo rest (c :: acc)

/-- Python `s.splitlines()`. -/
def splitlines (s : Str) : List Str := splitlinesGo s []

/-- First occurrence split: `some (before, after)` at the first `c`. -/
def splitFirst (c : Char) : Str → Option (Str × Str)
  | [] => none
  | x :: xs =>
    if x = c then some ([], xs)
    else (splitFirst c xs).map (fun ab => (x :: ab.1, ab.2))

/-- Python `s.split(c, maxsplit)`: at most `maxsplit` splits. -/
def pySplit (c : Char) : Nat → Str → List Str
  | 0, s => [s]
  | n + 1, s =>
    match splitFirst c s with
    | none => [s]
    | some (a, b) => a :: pySplit c n b

/-!
## FAQ compiler (`parse_faq_tsv`, src/app.py lines 48-84)
-/

/-- Appending a continuation line to the last row: `rows[-1] += "\n" + line`. -/
def appendToLast (rows : List Str) (line : Str) : List Str :=
  match rows with
  | [] => []
  | [r] => [r ++ '\n' :: line]
  | r :: rs => r :: appendToLast rs line

/-- One step of pass 1 of `parse_faq_tsv`: a line with at least 3 tabs starts
a new row, otherwise it continues the previous row (dropped if none). -/
def faqStep (rows : List Str) (line : Str) : List Str :=
  if 3 ≤ line.count '\t' then rows ++ [line]
  else if rows.isEmpty then rows
  else appendToLast rows line

/-- Pass 1 of `parse_faq_tsv`: merge continuation lines into full rows
(applied to the lines after the header). -/
def mergeRows (lines : List Str) : List Str := lines.foldl faqStep []

/-- Pass 2 of `parse_faq_tsv`, one row: split on the first three tabs, strip
fields, strip quotes off the answer, and build the Q/A block; `none` when the
row is skipped (`continue` in the source). -/
def rowBlock (row : Str) : Option Str :=
  match pySplit '\t' 3 row with
  | [c0, c1, c2, c3] =>
    let main_q := pyStrip c0
    let syn2 := pyStrip c1
    let syn3 := pyStrip c2
    let answer := stripQuotes (pyStrip c3)
    if main_q.isEmpty && answer.isEmpty then none
    else
      let block0 : Str := if main_q.isEmpty then [] else "Q: ".data ++ main_q
      let synonyms := [syn2, syn3].filter (fun s => !s.isEmpty)
      let block1 : Str :=
        if synonyms.isEmpty then block0
        else block0 ++ "\n(также: ".data
             ++ List.intercalate "; ".data synonyms ++ ")".data
      some (block1 ++ "\nA: ".data ++ answer)
  | _ => none

/-- `parse_faq_tsv(raw)`: header line dropped, continuation lines merged,
rows compiled to blocks joined by blank lines. -/
def parse_faq_tsv (raw : Str) : Str :=
  let raw_lines := splitlines raw
  if raw_lines.isEmpty then raw
  else
    let rows := mergeRows (raw_lines.drop 1)
    let entries := rows.filterMap rowBlock
    List.intercalate "\n\n".data entries


/-!
## Session store and `/ask` handler (src/app.py lines 100-188)
-/

def MAX_MESSAGES : Nat := 15

structure Message where
  role : Str
  content : Str
deriving DecidableEq, Repr

def userRole : Str := "user".data
def assistantRole : Str := "assistant".data

/-- The `sessions` dict, as an insertion-ordered association list. -/
abbrev Store := List (Str × List Message)

/-- Dict membership/lookup: `sessions[session_id]`. -/
def lookupS : Store → Str → Option (List Message)
  | [], _ => none
  | (k, v) :: rest, sid => if k = sid then some v else lookupS rest sid

/-- Dict assignment `sessions[k] = v`: overwrite in place, or append a new
key at the end (Python dicts keep insertion order). -/
def setS : Store → Str → List Message → Store
  | [], sid, v => [(sid, v)]
  | (k, w) :: rest, sid, v =>
    if k = sid then (k, v) :: rest else (k, w) :: setS rest sid v

/-- `get_or_create_session(session_id)`: a known, truthy (non-empty) id
returns the stored history unchanged; otherwise a fresh id (`uuid.uuid4()`,
modelled as the `freshId` argument) is mapped to an empty history.  Returns
(id, history, updated store). -/
def get_or_create_session (store : Store) (session_id : Option Str)
    (freshId : Str) : Str × List Message × Store :=
  match session_id with
  | some sid =>
    if sid ≠ [] ∧ (lookupS store sid).isSome then
      (sid, (lookupS store sid).getD [], store)
    else (freshId, [], setS store freshId [])
  | none => (freshId, [], setS store freshId [])

/-- The trimming loop of the `/ask` handler:
`while len(history) > MAX_MESSAGES: history.pop(0);
 if history and history[0]["role"] == "assistant": history.pop(0)`. -/
def trim (maxLen : Nat) : List Message → List Message
  | [] => []
  | m0 :: rest =>
    if (m0 :: rest).length ≤ maxLen then m0 :: rest
    else
      match rest with
      | [] => []
      | m1 :: rest2 =>
        if m1.role = assistantRole then trim maxLen rest2
        else trim maxLen (m1 :: rest2)

/-- The provider's HTTP response as `chat_completion` inspects it:
status code, response text, and the extracted
`data["choices"][0]["message"].get("content", "")` (`none` when the
`content` key is absent). -/
structure ProviderResponse where
  status : Nat
  bodyText : Str
  contentOpt : Option Str
deriving DecidableEq, Repr

def emptyContentErr : Str :=
  "Model returned empty content (reasoning may have exhausted token budget)".data

/-- `chat_completion`, given the provider's response: non-200 and empty
extracted content raise `RuntimeError` (modelled as `.error`); otherwise the
content is returned. -/
def chat_completion (resp : ProviderResponse) : Except Str Str :=
  if resp.status ≠ 200 then
    .error (("API ".data ++ (toString resp.status).data ++ ": ".data)
            ++ resp.bodyText.take 500)
  else
    let content := resp.contentOpt.getD []
    if content.isEmpty then .error emptyContentErr
    else .ok content

/-- Outcome of one `/ask` request (the JSON body fields the claims need). -/
inductive AskOutcome where
  | badRequest (err : Str)
  | gatewayError (err : Str)
  | success (session_id : Str) (reply : Str) (message_count : Nat)
deriving DecidableEq, Repr

/-- HTTP status of an `/ask` outcome (400 / 502 / 200 in the source). -/
def statusCode : AskOutcome → Nat
  | .badRequest _ => 400
  | .gatewayError _ => 502
  | .success _ _ _ => 200

def missingMessageErr : Str := "missing 'message' field".data

/-- The `/ask` handler.  `header` is the `X-Session-Id` header, `body` the
`message` field of the JSON body (`none` when absent), `freshId` the value
`uuid.uuid4()` would produce, and `resp` the provider's response to the
outbound call.  Returns the response and the post-request session store;
in-place list mutation is modelled by writing the session's history back to
the store at each mutation point, so the store paired with a 502 outcome is
the state the failed cycle leaves behind. -/
def ask (store : Store) (header : Option Str) (body : Option Str)
    (freshId : Str) (resp : ProviderResponse) : AskOutcome × Store :=
  let message := pyStrip (body.getD [])
  if message.isEmpty then (.badRequest missingMessageErr, store)
  else
    let r := get_or_create_session store header freshId
    let sid := r.1
    let history1 := r.2.1 ++ [⟨userRole, message⟩]
    let history2 := trim MAX_MESSAGES history1
    let store2 := setS r.2.2 sid history2
    match chat_completion resp with
    | .error e => (.gatewayError e, store2)
    | .ok reply =>
      let history3 := history2 ++ [⟨assistantRole, reply⟩]
      (.success sid reply history3.length, setS store2 sid history3)

def okResp : ProviderResponse := ⟨200, [], some "ok".data⟩
def failResp : ProviderResponse := ⟨500, "oops".data, none⟩


/-- One successful `/ask` cycle on session `"s"` (provider replies "ok"). -/
def askOnce (s : Store) : Store :=
  (ask s (some "s".data) (some "hi".data) "f".data okResp).2

/-- The store after eight successful `/ask` requests on one session that
started empty. -/
def storeAfter8 : Store :=
  askOnce (askOnce (askOnce (askOnce (askOnce (askOnce (askOnce (askOnce
    [("s".data, [])])))))))


/-!
## Helper lemmas
-/

theorem trim_of_length_le (n : Nat) (l : List Message) (h : l.length ≤ n) :
    trim n l = l := by
  cases l with
  | nil => simp [trim]
  | cons m0 rest =>
    cases rest with
    | nil =>
      simp only [trim]
      split
      · rfl
      · next hc => exact absurd h hc
    | cons m1 rest2 =>
      simp only [trim]
      split
      · rfl
      · next hc => exact absurd h hc

theorem trim_length_le (n : Nat) (l : List Message) : (trim n l).length ≤ n := by
  induction l using trim.induct n with
  | case1 => simp [trim]
  | case2 m1 rest2 hle =>
    rw [trim_of_length_le n _ hle]
    exact hle
  | case3 m1 hgt =>
    simp at hgt
    subst hgt
    simp [trim]
  | case4 m0 m1 rest2 hrole hgt ih =>
    simp only [List.length_cons] at hgt
    simpa [trim, hrole, hgt] using ih
  | case5 m0 m1 rest2 hrole hgt ih =>
    simp only [List.length_cons] at hgt
    simpa [trim, hrole, hgt] using ih

theorem trim_step_gt (n : Nat) (m0 m1 : Message) (rest2 : List Message)
    (hgt : ¬ (m0 :: m1 :: rest2).length ≤ n) :
    trim n (m0 :: m1 :: rest2) =
      if m1.role = assistantRole then trim n rest2 else trim n (m1 :: rest2) := by
  rw [trim, if_neg hgt]

theorem trim_last_kept (n : Nat) (m : Message) (hn : 1 ≤ n)
    (hrole : m.role ≠ assistantRole) :
    ∀ h : List Message, ∃ h', trim n (h ++ [m]) = h' ++ [m] := by
  intro h
  generalize hk : h.length = k
  induction k using Nat.strong_induction_on generalizing h with
  | _ k ih =>
    subst hk
    by_cases hle : (h ++ [m]).length ≤ n
    · exact ⟨h, trim_of_length_le _ _ hle⟩
    · cases h with
      | nil => simp at hle; omega
      | cons x h1 =>
        cases h1 with
        | nil =>
          rw [List.cons_append, List.nil_append,
            trim_step_gt n x m [] (by simpa using hle), if_neg hrole]
          exact ih 0 (by simp) [] rfl
        | cons y h2 =>
          rw [List.cons_append, List.cons_append,
            trim_step_gt n x y (h2 ++ [m]) (by simpa using hle)]
          by_cases hy : y.role = assistantRole
          · rw [if_pos hy]
            exact ih h2.length (by simp; omega) h2 rfl
          · rw [if_neg hy, ← List.cons_append]
            exact ih (y :: h2).length (by simp) (y :: h2) rfl

theorem lookupS_setS_self (s : Store) (k : Str) (v : List Message) :
    lookupS (setS s k v) k = some v := by
  induction s with
  | nil => simp [setS, lookupS]
  | cons p rest ih =>
    obtain ⟨a, b⟩ := p
    by_cases hk : a = k
    · simp [setS, lookupS, hk]
    · simp [setS, lookupS, hk, ih]

theorem lookupS_setS_ne (s : Store) (k k' : Str) (v : List Message)
    (h : k ≠ k') : lookupS (setS s k v) k' = lookupS s k' := by
  induction s with
  | nil => simp [setS, lookupS, h]
  | cons p rest ih =>
    obtain ⟨a, b⟩ := p
    by_cases hk : a = k
    · subst hk
      simp [setS, lookupS, h]
    · simp [setS, lookupS, hk, ih]

theorem dropWhile_head_not (p : Char → Bool) (s : Str) :
    ∀ c, (s.dropWhile p).head? = some c → p c = false := by
  induction s with
  | nil => simp
  | cons x xs ih =>
    intro c hc
    by_cases hx : p x
    · rw [List.dropWhile_cons_of_pos hx] at hc
      exact ih c hc
    · rw [List.dropWhile_cons_of_neg hx] at hc
      simp at hc
      subst hc
      simpa using hx

theorem dropWhile_eq_strip_append (p : Char → Bool) (s : Str) :
    s.dropWhile p = stripWith p s
      ++ ((s.dropWhile p).reverse.takeWhile p).reverse := by
  unfold stripWith
  conv_lhs => rw [← List.reverse_reverse (s.dropWhile p),
    ← List.takeWhile_append_dropWhile p (s.dropWhile p).reverse]
  rw [List.reverse_append]

theorem stripWith_decomp (p : Char → Bool) (s : Str) :
    ∃ a b, s = a ++ stripWith p s ++ b
      ∧ (∀ c ∈ a, p c = true) ∧ (∀ c ∈ b, p c = true) := by
  refine ⟨s.takeWhile p, ((s.dropWhile p).reverse.takeWhile p).reverse, ?_, ?_, ?_⟩
  · conv_lhs => rw [← List.takeWhile_append_dropWhile p s]
    rw [List.append_assoc]
    congr 1
    exact dropWhile_eq_strip_append p s
  · exact fun c hc => List.mem_takeWhile_imp hc
  · intro c hc
    rw [List.mem_reverse] at hc
    exact List.mem_takeWhile_imp hc

theorem stripWith_head_not (p : Char → Bool) (s : Str) :
    ∀ c, (stripWith p s).head? = some c → p c = false := by
  intro c hc
  have hhead : (s.dropWhile p).head? = some c := by
    rw [dropWhile_eq_strip_append p s]
    rcases hu : stripWith p s with _ | ⟨x, xs⟩
    · rw [hu] at hc
      simp at hc
    · rw [hu] at hc
      simp at hc ⊢
      exact hc
  exact dropWhile_head_not p s c hhead

theorem stripWith_last_not (p : Char → Bool) (s : Str) :
    ∀ c, (stripWith p s).getLast? = some c → p c = false := by
  intro c hc
  unfold stripWith at hc
  rw [List.getLast?_reverse] at hc
  exact dropWhile_head_not p _ c hc

theorem pyStrip_all_space (s : Str) (h : ∀ c ∈ s, isPySpace c = true) :
    pyStrip s = [] := by
  unfold pyStrip stripWith
  have h1 : s.dropWhile isPySpace = [] := List.dropWhile_eq_nil_iff.mpr h
  simp [h1]

theorem appendToLast_concat (rs : List Str) (r line : Str) :
    appendToLast (rs ++ [r]) line = rs ++ [r ++ '\n' :: line] := by
  induction rs with
  | nil => simp [appendToLast]
  | cons x xs ih =>
    cases xs with
    | nil => simp [appendToLast]
    | cons y ys => simpa [appendToLast] using ih

theorem get_or_create_known (store : Store) (sid : Str) (h : List Message)
    (fid : Str) (hsid : sid ≠ []) (hfound : lookupS store sid = some h) :
    get_or_create_session store (some sid) fid = (sid, h, store) := by
  simp [get_or_create_session, hfound, hsid]

theorem get_or_create_cases (store : Store) (header : Option Str) (fid : Str) :
    (∃ sid0 h0, lookupS store sid0 = some h0
       ∧ get_or_create_session store header fid = (sid0, h0, store))
    ∨ get_or_create_session store header fid = (fid, [], setS store fid []) := by
  cases header with
  | none => right; rfl
  | some sid0 =>
    by_cases hc : sid0 ≠ [] ∧ (lookupS store sid0).isSome
    · left
      obtain ⟨h0, hh0⟩ := Option.isSome_iff_exists.mp hc.2
      exact ⟨sid0, h0, hh0, by simp [get_or_create_session, hc, hh0]⟩
    · right
      simp [get_or_create_session]
      intro h1 h2
      exact absurd ⟨h1, h2⟩ hc

theorem lookup_after_ask (store : Store) (header body : Option Str) (fid : Str)
    (resp : ProviderResponse) (sid : Str) (h : List Message)
    (hfind : lookupS (ask store header body fid resp).2 sid = some h) :
    lookupS store sid = some h ∨ h = []
    ∨ (∃ h0, h = trim MAX_MESSAGES (h0 ++ [⟨userRole, pyStrip (body.getD [])⟩]))
    ∨ (∃ h0 reply,
        h = trim MAX_MESSAGES (h0 ++ [⟨userRole, pyStrip (body.getD [])⟩])
          ++ [⟨assistantRole, reply⟩]) := by
  unfold ask at hfind
  by_cases hm : (pyStrip (body.getD [])).isEmpty
  · rw [if_pos hm] at hfind
    exact Or.inl hfind
  · rw [if_neg hm] at hfind
    rcases get_or_create_cases store header fid with ⟨sid0, h0, hl0, heq⟩ | heq <;>
      rw [heq] at hfind <;>
      rcases hcc : chat_completion resp with e | reply <;>
      simp only [hcc] at hfind
    · by_cases hs : sid0 = sid
      · subst hs
        rw [lookupS_setS_self] at hfind
        exact Or.inr (Or.inr (Or.inl ⟨h0, (Option.some_inj.mp hfind).symm⟩))
      · rw [lookupS_setS_ne _ _ _ _ hs] at hfind
        exact Or.inl hfind
    · by_cases hs : sid0 = sid
      · subst hs
        rw [lookupS_setS_self] at hfind
        exact Or.inr (Or.inr (Or.inr ⟨h0, reply, (Option.some_inj.mp hfind).symm⟩))
      · rw [lookupS_setS_ne _ _ _ _ hs, lookupS_setS_ne _ _ _ _ hs] at hfind
        exact Or.inl hfind
    · by_cases hs : fid = sid
      · subst hs
        rw [lookupS_setS_self] at hfind
        exact Or.inr (Or.inr (Or.inl ⟨[], (Option.some_inj.mp hfind).symm⟩))
      · rw [lookupS_setS_ne _ _ _ _ hs, lookupS_setS_ne _ _ _ _ hs] at hfind
        exact Or.inl hfind
    · by_cases hs : fid = sid
      · subst hs
        rw [lookupS_setS_self] at hfind
        exact Or.inr (Or.inr (Or.inr ⟨[], reply, (Option.some_inj.mp hfind).symm⟩))
      · rw [lookupS_setS_ne _ _ _ _ hs, lookupS_setS_ne _ _ _ _ hs,
          lookupS_setS_ne _ _ _ _ hs] at hfind
        exact Or.inl hfind

theorem ask_known_error (store : Store) (sid : Str) (h : List Message)
    (msg fid : Str) (resp : ProviderResponse) (e : Str)
    (hsid : sid ≠ []) (hfound : lookupS store sid = some h)
    (hmsg : ¬ (pyStrip msg).isEmpty) (herr : chat_completion resp = .error e) :
    ask store (some sid) (some msg) fid resp
      = (.gatewayError e,
         setS store sid (trim MAX_MESSAGES (h ++ [⟨userRole, pyStrip msg⟩]))) := by
  unfold ask
  rw [Option.getD_some, if_neg hmsg, get_or_create_known store sid h fid hsid hfound]
  simp only [herr]

theorem ask_known_ok (store : Store) (sid : Str) (h : List Message)
    (msg fid : Str) (resp : ProviderResponse) (reply : Str)
    (hsid : sid ≠ []) (hfound : lookupS store sid = some h)
    (hmsg : ¬ (pyStrip msg).isEmpty) (hok : chat_completion resp = .ok reply) :
    ask store (some sid) (some msg) fid resp
      = (.success sid reply
           ((trim MAX_MESSAGES (h ++ [⟨userRole, pyStrip msg⟩])).length + 1),
         setS (setS store sid (trim MAX_MESSAGES (h ++ [⟨userRole, pyStrip msg⟩])))
           sid (trim MAX_MESSAGES (h ++ [⟨userRole, pyStrip msg⟩])
                ++ [⟨assistantRole, reply⟩])) := by
  unfold ask
  rw [Option.getD_some, if_neg hmsg, get_or_create_known store sid h fid hsid hfound]
  simp only [hok, List.length_append, List.length_cons, List.length_nil]

theorem ask_empty_message (store : Store) (header body : Option Str)
    (fid : Str) (resp : ProviderResponse)
    (hm : (pyStrip (body.getD [])).isEmpty) :
    ask store header body fid resp = (.badRequest missingMessageErr, store) := by
  unfold ask
  rw [if_pos hm]

theorem ask_gateway_failure_status (store : Store) (header body : Option Str)
    (fid : Str) (resp : ProviderResponse) (e : Str)
    (hm : ¬ (pyStrip (body.getD [])).isEmpty)
    (herr : chat_completion resp = .error e) :
    (ask store header body fid resp).1 = .gatewayError e := by
  unfold ask
  rw [if_neg hm]
  rcases get_or_create_cases store header fid with ⟨sid0, h0, hl0, heq⟩ | heq <;>
    rw [heq] <;> simp only [herr]

/-!
## Claim theorems
-/

/-- C4: the trimming loop of `/ask` leaves a history of length at most
`MAX_MESSAGES` untouched; on a longer history it removes the oldest message
and, when the new oldest message then has assistant role, that one too,
repeating until the length is at most `MAX_MESSAGES` (a user-role oldest
message is left in place); the post-trim length is at most `MAX_MESSAGES`;
the just-appended user message is always retained; and on a successful
request the assistant reply is appended only after trimming, so the gateway
sees the trimmed history. -/
theorem C4_trim_correct :
    (∀ l : List Message, l.length ≤ MAX_MESSAGES → trim MAX_MESSAGES l = l)
    ∧ (∀ m0 m1 rest2, ¬ (m0 :: m1 :: rest2 : List Message).length ≤ MAX_MESSAGES →
        trim MAX_MESSAGES (m0 :: m1 :: rest2)
          = if m1.role = assistantRole then trim MAX_MESSAGES rest2
            else trim MAX_MESSAGES (m1 :: rest2))
    ∧ (∀ l : List Message, (trim MAX_MESSAGES l).length ≤ MAX_MESSAGES)
    ∧ (∀ h m, Message.role m = userRole →
        ∃ h', trim MAX_MESSAGES (h ++ [m]) = h' ++ [m])
    ∧ (∀ store sid h msg fid resp reply, sid ≠ [] → lookupS store sid = some h
        → ¬ (pyStrip msg).isEmpty → chat_completion resp = .ok reply
        → ask store (some sid) (some msg) fid resp
          = (.success sid reply
               ((trim MAX_MESSAGES (h ++ [⟨userRole, pyStrip msg⟩])).length + 1),
             setS (setS store sid
                 (trim MAX_MESSAGES (h ++ [⟨userRole, pyStrip msg⟩]))) sid
               (trim MAX_MESSAGES (h ++ [⟨userRole, pyStrip msg⟩])
                ++ [⟨assistantRole, reply⟩]))) := by
  refine ⟨trim_of_length_le MAX_MESSAGES, trim_step_gt MAX_MESSAGES, ?_, ?_, ?_⟩
  · exact trim_length_le MAX_MESSAGES
  · intro h m hrole
    exact trim_last_kept MAX_MESSAGES m (by decide)
      (by rw [hrole]; decide) h
  · intro store sid h msg fid resp reply hsid hfound hmsg hok
    exact ask_known_ok store sid h msg fid resp reply hsid hfound hmsg hok

/-- C4 witness: the trim loop applied to a concrete one-message history. -/
theorem C4_trim_correct_witness :
    trim MAX_MESSAGES [⟨userRole, "m".data⟩] = [⟨userRole, "m".data⟩] :=
  C4_trim_correct.1 [⟨userRole, "m".data⟩] (by decide)

/-- C5: a provider response with status 200 whose extracted content is empty
makes `chat_completion` fail with the empty-content diagnostic, and on any
`/ask` request with a non-empty message it yields a 502 gateway error, never
a successful empty reply. -/
theorem C5_empty_content_failure (resp : ProviderResponse)
    (h200 : resp.status = 200) (hempty : resp.contentOpt.getD [] = []) :
    chat_completion resp = .error emptyContentErr
    ∧ ∀ store header body fid, ¬ (pyStrip (body.getD [])).isEmpty →
        (ask store header body fid resp).1 = .gatewayError emptyContentErr
        ∧ statusCode (ask store header body fid resp).1 = 502 := by
  have hcc : chat_completion resp = .error emptyContentErr := by
    simp [chat_completion, h200, hempty]
  refine ⟨hcc, fun store header body fid hm => ?_⟩
  rw [ask_gateway_failure_status store header body fid resp emptyContentErr hm hcc]
  exact ⟨rfl, rfl⟩

/-- C5 witness: a concrete 200-status response with empty content gives
a 502 on a concrete request. -/
theorem C5_empty_content_failure_witness :
    statusCode (ask [] none (some "hi".data) "f".data
      ⟨200, [], some []⟩).1 = 502 :=
  ((C5_empty_content_failure ⟨200, [], some []⟩ rfl rfl).2 [] none
    (some "hi".data) "f".data (by decide)).2

/-- C8: `get_or_create_session` on a known (non-empty) identifier returns
that identifier and the stored history with the store unchanged (so a second
call returns the same history again); on an absent or unknown identifier it
returns the fresh identifier with an empty history, registered in the
store. -/
theorem C8_get_or_create :
    (∀ store sid h fid, sid ≠ [] → lookupS store sid = some h →
       get_or_create_session store (some sid) fid = (sid, h, store))
    ∧ (∀ store fid,
       get_or_create_session store none fid = (fid, [], setS store fid []))
    ∧ (∀ store sid fid, lookupS store sid = none →
       get_or_create_session store (some sid) fid = (fid, [], setS store fid []))
    ∧ (∀ store fid, lookupS (setS store fid []) fid = some []) := by
  refine ⟨get_or_create_known, fun store fid => rfl, ?_, ?_⟩
  · intro store sid fid hun
    simp [get_or_create_session, hun]
  · intro store fid
    exact lookupS_setS_self store fid []

/-- C8 witness: a concrete known identifier returns the stored history and
leaves the store unchanged. -/
theorem C8_get_or_create_witness :
    get_or_create_session [("s".data, [⟨userRole, "m".data⟩])]
      (some "s".data) "f".data
      = ("s".data, [⟨userRole, "m".data⟩], [("s".data, [⟨userRole, "m".data⟩])]) :=
  C8_get_or_create.1 [("s".data, [⟨userRole, "m".data⟩])] "s".data
    [⟨userRole, "m".data⟩] "f".data (by decide) (by decide)

/-- C9: an `/ask` request without a `message` field (or with an empty one)
is rejected with status 400 and the missing-message error body, and the
session store is left exactly as it was. -/
theorem C9_missing_message (store : Store) (header : Option Str) (fid : Str)
    (resp : ProviderResponse) (body : Option Str)
    (hbody : body = none ∨ body = some []) :
    ask store header body fid resp = (.badRequest missingMessageErr, store)
    ∧ statusCode (ask store header body fid resp).1 = 400 := by
  have hm : (pyStrip (body.getD [])).isEmpty := by
    rcases hbody with h | h <;> subst h <;> decide
  have he := ask_empty_message store header body fid resp hm
  exact ⟨he, by rw [he]; rfl⟩

/-- C9 witness: the empty body on a concrete store. -/
theorem C9_missing_message_witness :
    ask [] none none "f".data okResp = (.badRequest missingMessageErr, []) :=
  (C9_missing_message [] none "f".data okResp none (Or.inl rfl)).1

/-- C10: an `/ask` request whose message is all whitespace is stripped to
empty and rejected exactly like a missing message: status 400,
missing-message error, store untouched. -/
theorem C10_whitespace_message (store : Store) (header : Option Str)
    (fid : Str) (resp : ProviderResponse) (msg : Str)
    (hws : ∀ c ∈ msg, isPySpace c = true) :
    ask store header (some msg) fid resp = (.badRequest missingMessageErr, store)
    ∧ statusCode (ask store header (some msg) fid resp).1 = 400 := by
  have hm : (pyStrip ((some msg).getD [])).isEmpty := by
    rw [Option.getD_some, pyStrip_all_space msg hws]
    rfl
  have he := ask_empty_message store header (some msg) fid resp hm
  exact ⟨he, by rw [he]; rfl⟩

/-- C10 witness: a concrete whitespace-only message is rejected with the
store unchanged. -/
theorem C10_whitespace_message_witness :
    ask [("s".data, [])] (some "s".data) (some " \t ".data) "f".data okResp
      = (.badRequest missingMessageErr, [("s".data, [])]) :=
  (C10_whitespace_message [("s".data, [])] (some "s".data) "f".data okResp
    " \t ".data (by decide)).1

/-- C1 counterexample: starting from an empty session, eight consecutive
successful `/ask` requests leave the session history at 16 messages,
exceeding MAX_MESSAGES = 15: the handler trims before the gateway call but
appends the assistant reply afterwards without re-trimming. -/
theorem C1_counterexample :
    (lookupS storeAfter8 "s".data).map List.length = some 16
    ∧ MAX_MESSAGES < 16 := by decide

/-- C1 (amended): the bound that actually holds between operations is
MAX_MESSAGES + 1, not MAX_MESSAGES: any session history found after an
`/ask` request has at most MAX_MESSAGES + 1 messages (given every history
satisfied that bound before), and the trimmed history handed to the gateway
has at most MAX_MESSAGES messages. -/
theorem C1_history_bound (store : Store) (header body : Option Str)
    (fid : Str) (resp : ProviderResponse) (sid : Str) (h : List Message)
    (hinv : ∀ sid' h', lookupS store sid' = some h'
       → h'.length ≤ MAX_MESSAGES + 1)
    (hfind : lookupS (ask store header body fid resp).2 sid = some h) :
    h.length ≤ MAX_MESSAGES + 1
    ∧ ∀ l : List Message, (trim MAX_MESSAGES l).length ≤ MAX_MESSAGES := by
  refine ⟨?_, trim_length_le MAX_MESSAGES⟩
  rcases lookup_after_ask store header body fid resp sid h hfind with
    h1 | h1 | ⟨h0, h1⟩ | ⟨h0, reply, h1⟩
  · exact hinv sid h h1
  · simp [h1]
  · subst h1
    exact (trim_length_le MAX_MESSAGES _).trans (Nat.le_succ _)
  · subst h1
    have := trim_length_le MAX_MESSAGES
      (h0 ++ [⟨userRole, pyStrip (body.getD [])⟩])
    simp only [List.length_append, List.length_cons, List.length_nil]
    omega

/-- C1 witness: the amended bound at a concrete request on the empty
store. -/
theorem C1_history_bound_witness :
    ([⟨userRole, pyStrip "hi".data⟩,
      ⟨assistantRole, "ok".data⟩] : List Message).length ≤ MAX_MESSAGES + 1 :=
  (C1_history_bound [] none (some "hi".data) "f".data okResp "f".data
    [⟨userRole, pyStrip "hi".data⟩, ⟨assistantRole, "ok".data⟩]
    (fun sid' h' hl => by simp [lookupS] at hl)
    (by decide)).1

/-- C2 counterexample: an answer written `""A""` loses BOTH quote layers —
`str.strip('"')` removes every leading/trailing quote character, not at
most one per side as the claim states (which would leave `"A"`). -/
theorem C2_counterexample :
    parse_faq_tsv "h\nQ\t\t\t\"\"A\"\"".data = "Q: Q\nA: A".data
    ∧ parse_faq_tsv "h\nQ\t\t\t\"\"A\"\"".data ≠ "Q: Q\nA: \"A\"".data := by
  decide

/-- C2 (amended): after whitespace trimming, the answer field has ALL of
its leading and trailing quote characters stripped, not exactly one layer:
the stripped answer is a contiguous inner segment of the trimmed field
whose removed flanks consist entirely of quote characters, and the result
neither starts nor ends with a quote character. -/
theorem C2_strip_all_quotes (s : Str) :
    (∃ a b, pyStrip s = a ++ stripQuotes (pyStrip s) ++ b
       ∧ (∀ c ∈ a, c = '"') ∧ (∀ c ∈ b, c = '"'))
    ∧ (∀ c, (stripQuotes (pyStrip s)).head? = some c → c ≠ '"')
    ∧ (∀ c, (stripQuotes (pyStrip s)).getLast? = some c → c ≠ '"') := by
  refine ⟨?_, ?_, ?_⟩
  · obtain ⟨a, b, hab, ha, hb⟩ := stripWith_decomp (· = '"') (pyStrip s)
    exact ⟨a, b, hab, fun c hc => by simpa using ha c hc,
      fun c hc => by simpa using hb c hc⟩
  · intro c hc
    have := stripWith_head_not (· = '"') (pyStrip s) c hc
    simpa using this
  · intro c hc
    have := stripWith_last_not (· = '"') (pyStrip s) c hc
    simpa using this

/-- C2 witness: on a concrete doubly-quoted answer the stripped text starts
with the letter, not a quote. -/
theorem C2_strip_all_quotes_witness : ('A' : Char) ≠ '"' :=
  (C2_strip_all_quotes " \"\"A\"\" ".data).2.1 'A' (by decide)

/-- C3 counterexample: a failed gateway call does mutate the session — the
user message appended before the call stays in the history, so the state
after the 502 differs from the pre-request state. -/
theorem C3_counterexample :
    statusCode (ask [("s".data, [])] (some "s".data) (some "hi".data)
      "f".data failResp).1 = 502
    ∧ (ask [("s".data, [])] (some "s".data) (some "hi".data)
        "f".data failResp).2 ≠ [("s".data, [])] := by decide

/-- C3 (amended): on a gateway failure the `/ask` handler returns the 502
diagnostic and appends NO assistant message, but the user message appended
(and the trimming performed) before the gateway call remains: the
post-request store is exactly the pre-request store with the session's
history replaced by the trimmed history-plus-user-message. -/
theorem C3_failure_keeps_user_append (store : Store) (sid : Str)
    (h : List Message) (msg fid : Str) (resp : ProviderResponse) (e : Str)
    (hsid : sid ≠ []) (hfound : lookupS store sid = some h)
    (hmsg : ¬ (pyStrip msg).isEmpty) (herr : chat_completion resp = .error e) :
    ask store (some sid) (some msg) fid resp
      = (.gatewayError e,
         setS store sid (trim MAX_MESSAGES (h ++ [⟨userRole, pyStrip msg⟩]))) :=
  ask_known_error store sid h msg fid resp e hsid hfound hmsg herr

/-- C3 witness: the failure path at a concrete request. -/
theorem C3_failure_keeps_user_append_witness :
    ask [("s".data, [])] (some "s".data) (some "hi".data) "f".data failResp
      = (.gatewayError "API 500: oops".data,
         setS [("s".data, [])] "s".data
           (trim MAX_MESSAGES ([] ++ [⟨userRole, pyStrip "hi".data⟩]))) :=
  C3_failure_keeps_user_append [("s".data, [])] "s".data [] "hi".data
    "f".data failResp "API 500: oops".data (by decide) (by decide)
    (by decide) (by rfl)

/-- C6: in pass 1 of the FAQ compiler a line with at least 3 tabs starts a
new row, a line with fewer is glued with a newline onto the last row, and
such a line with no preceding row is dropped; the header line is always
discarded; the spec's round-trip document compiles to exactly the two
expected blocks, the second answer carrying the embedded newline. -/
theorem C6_line_merging :
    (∀ rows line, 3 ≤ line.count '\t' → faqStep rows line = rows ++ [line])
    ∧ (∀ line, line.count '\t' < 3 → faqStep [] line = [])
    ∧ (∀ rows r line, line.count '\t' < 3 →
        faqStep (rows ++ [r]) line = rows ++ [r ++ '\n' :: line])
    ∧ parse_faq_tsv "h\nQ1\tS1\tS2\tA1\nQ2\t\t\tA2 line1\ncont A2 line2".data
        = "Q: Q1\n(также: S1; S2)\nA: A1".data ++ "\n\n".data
          ++ "Q: Q2\nA: A2 line1".data ++ '\n' :: "cont A2 line2".data
    ∧ parse_faq_tsv "H\tx\ty\tz\nQ\t\t\tA".data = "Q: Q\nA: A".data := by
  refine ⟨?_, ?_, ?_, by decide, by decide⟩
  · intro rows line hcount
    simp [faqStep, hcount]
  · intro line hcount
    simp only [faqStep]
    rw [if_neg (by omega)]
    simp
  · intro rows r line hcount
    simp only [faqStep]
    rw [if_neg (by omega), if_neg (by simp)]
    exact appendToLast_concat rows r line

/-- C6 witness: a concrete 3-tab line starts a new row. -/
theorem C6_line_merging_witness :
    faqStep [] "a\tb\tc\td".data = [] ++ ["a\tb\tc\td".data] :=
  C6_line_merging.1 [] "a\tb\tc\td".data (by decide)

/-- C7: a logical row whose main question and (stripped) answer are both
empty yields no block; a row with an empty question but non-empty answer is
still emitted, its block holding only the optional synonym line and the
answer line, with no question line. -/
theorem C7_row_filtering :
    (∀ row c0 c1 c2 c3, pySplit '\t' 3 row = [c0, c1, c2, c3] →
       pyStrip c0 = [] → stripQuotes (pyStrip c3) = [] → rowBlock row = none)
    ∧ (∀ row c0 c1 c2 c3, pySplit '\t' 3 row = [c0, c1, c2, c3] →
       pyStrip c0 = [] → stripQuotes (pyStrip c3) ≠ [] →
       rowBlock row = some
         ((if ([pyStrip c1, pyStrip c2].filter (fun s => !s.isEmpty)).isEmpty
             then ([] : Str)
             else "\n(также: ".data
               ++ List.intercalate "; ".data
                    ([pyStrip c1, pyStrip c2].filter (fun s => !s.isEmpty))
               ++ ")".data)
          ++ "\nA: ".data ++ stripQuotes (pyStrip c3)))
    ∧ parse_faq_tsv "h\n\t\t\t".data = []
    ∧ rowBlock "\t\t\tA".data = some "\nA: A".data := by
  refine ⟨?_, ?_, by decide, by decide⟩
  · intro row c0 c1 c2 c3 hs hq ha
    simp [rowBlock, hs, hq, ha]
  · intro row c0 c1 c2 c3 hs hq ha
    simp [rowBlock, hs, hq, ha]

/-- C7 witness: the all-empty row is dropped. -/
theorem C7_row_filtering_witness :
    rowBlock "\t\t\t".data = none :=
  C7_row_filtering.1 "\t\t\t".data "".data "".data "".data "".data
    (by decide) (by decide) (by decide)
